import Mathlib

/-!
Verification of the roomba gateway controller (gateway_code/gateway_roomba.py).

The controller is embedded shallowly: the mutable object state becomes an
explicit `GatewayState` record, each public method becomes a function from
state to a triple of new state, result and an ordered list of observable
side effects (log records, queued mode commands, sleeps, thread operations).
Python runtime failures (KeyError on a dict lookup, UnboundLocalError,
ZeroDivisionError) are modelled with `Except String`, where the error string
names the exception class the interpreter would raise.  The status field is
kept as a `String`, exactly as in the source, so that the invariant that it
always lies in the seven enumerated values is a genuine theorem rather than
a typing artifact.  Sensor values arrive as natural numbers (Python ints from
the decoder) and positions as rationals; the IEEE-754 binary64 float
arithmetic of the battery computation is modelled exactly: every float
operation rounds its rational value to 53 significant bits with round to
nearest, ties to even (`roundDouble`, with unbounded exponent range, so it
agrees with binary64 on the whole normal range), and `int` truncation
toward zero is `pyInt`.
-/

/-- The STATUS dictionary of the source: status name to numeric rank. -/
def STATUS : List (String × Int) :=
  [("error", -1), ("closed", 0), ("init", 1), ("docked", 2),
   ("moving", 3), ("paused", 4), ("searching_dock", 4)]

/-- Dictionary lookup STATUS[st]; `none` corresponds to a Python KeyError. -/
def statusRank (st : String) : Option Int :=
  (STATUS.find? (fun p => p.1 == st)).map (fun p => p.2)

/-- One decoded sensor frame, as indexed from sensor_list in the source. -/
structure SensorFrame where
  home_base : Nat
  left_wheel_overcurrent : Nat
  right_wheel_overcurrent : Nat
  left_wheel_drop : Nat
  right_wheel_drop : Nat
  battery_charge : Nat
  battery_capacity : Nat
  pos_x : Rat
  pos_y : Rat
  pos_z : Rat
  deriving DecidableEq, Repr

/-- Mutable fields of a GatewayRoomba object. -/
structure GatewayState where
  status : String
  battery : Int
  sensor_list : Option SensorFrame
  watch_run : Bool
  deriving DecidableEq, Repr

/-- Observable side effects of the methods, in program order. -/
inductive Event where
  | logError (msg : String)
  | logDebug (msg : String)
  | putCommand (mode : String)
  | sleep (secs : Nat)
  | resetPosition
  | startSerialThread
  | startWatchThread
  | joinWatchThread
  | joinSerialThread
  | closeSerial
  deriving DecidableEq, Repr

/-- Python int() applied to a rational: truncation toward zero. -/
def pyInt (q : Rat) : Int :=
  if q < 0 then -⌊-q⌋ else ⌊q⌋

/-- Round a rational to the nearest integer, ties to even: the rounding
used by IEEE-754 binary64 arithmetic. -/
def rne (x : Rat) : Int :=
  if x - ⌊x⌋ < 1/2 then ⌊x⌋
  else if (1:Rat)/2 < x - ⌊x⌋ then ⌊x⌋ + 1
  else if ⌊x⌋ % 2 = 0 then ⌊x⌋ else ⌊x⌋ + 1

/-- Round a rational to the nearest IEEE-754 binary64 value: 53 significant
bits, round to nearest, ties to even, with unbounded exponent range (no
overflow or subnormals, so it agrees with binary64 on the whole normal
range).  Every Python float operation rounds its exact result this way. -/
def roundDouble (q : Rat) : Rat :=
  if 0 < q then (rne (q / 2 ^ (Int.log 2 q - 52)) : Rat) * 2 ^ (Int.log 2 q - 52)
  else if q < 0 then
    -((rne (-q / 2 ^ (Int.log 2 (-q) - 52)) : Rat) * 2 ^ (Int.log 2 (-q) - 52))
  else 0

/-- Object state as set up by the constructor before it calls init_roomba. -/
def initialState : GatewayState :=
  { status := "init", battery := -1, sensor_list := none, watch_run := false }

/-- init_roomba.  The value the source reads from self.robot.connect is
passed in as the `connect` argument. -/
def init_roomba (s : GatewayState) (connect : Bool) : GatewayState × Int × List Event :=
  let s1 := { s with status := "init" }
  if connect == false then
    ({ s1 with status := "error" }, 1,
     [Event.logDebug "Init Roomba communication", Event.logError "Roomba connection failed"])
  else
    ({ s1 with watch_run := true }, 0,
     [Event.logDebug "Init Roomba communication", Event.startSerialThread,
      Event.sleep 1, Event.startWatchThread])

/-- close_roomba. -/
def close_roomba (s : GatewayState) : GatewayState × Int × List Event :=
  ({ s with status := "closed", watch_run := false }, 0,
   [Event.logDebug "Close Roomba communication", Event.joinWatchThread,
    Event.sleep 1, Event.joinSerialThread, Event.closeSerial])

/-- start.  The result component is Except because STATUS[self.status]
raises KeyError when the status string is not a key of the dictionary. -/
def start (s : GatewayState) : GatewayState × Except String Int × List Event :=
  match statusRank s.status with
  | none => (s, Except.error "KeyError", [])
  | some r =>
    if r < 1 then
      (s, Except.ok 1, [Event.logError "Start experiment failed"])
    else
      ({ s with status := "moving" }, Except.ok 0,
       [Event.logDebug "Start experiment", Event.putCommand "clean"])

/-- stop: sends dock, sleeps 1 second, sends dock again. -/
def stop (s : GatewayState) : GatewayState × Except String Int × List Event :=
  match statusRank s.status with
  | none => (s, Except.error "KeyError", [])
  | some r =>
    if r < 1 then
      (s, Except.ok 1, [Event.logError "Stop experiment failed"])
    else
      ({ s with status := "searching_dock" }, Except.ok 0,
       [Event.logDebug "Stop experiment", Event.putCommand "dock",
        Event.sleep 1, Event.putCommand "dock"])

/-- get_status. -/
def get_status (s : GatewayState) : String :=
  s.status

/-- get_battery. -/
def get_battery (s : GatewayState) : GatewayState × Except String Int × List Event :=
  match statusRank s.status with
  | none => (s, Except.error "KeyError", [])
  | some r =>
    if r < 1 then
      ({ s with battery := -1 }, Except.ok (-1), [Event.logError "Get battery failed"])
    else
      (s, Except.ok s.battery, [])

/-- get_position.  In the branch where STATUS[self.status] < 1 the locals
posx, posy, theta are never assigned, so the final return statement raises
UnboundLocalError; when the branch assigns them but sensor_list is still
None, the subscript raises TypeError. -/
def get_position (s : GatewayState) : GatewayState × Except String (List Rat) × List Event :=
  match statusRank s.status with
  | none => (s, Except.error "KeyError", [])
  | some r =>
    if r < 1 then
      (s, Except.error "UnboundLocalError", [Event.logError "Get position failed"])
    else
      match s.sensor_list with
      | none => (s, Except.error "TypeError", [])
      | some f => (s, Except.ok [f.pos_x, f.pos_y, f.pos_z], [])

/-- motion_pause.  Note: the source sets st_return = 1 in both branches. -/
def motion_pause (s : GatewayState) : GatewayState × Int × List Event :=
  if s.status == "moving" then
    ({ s with status := "paused" }, 1,
     [Event.logDebug "Motion pause", Event.putCommand "safe"])
  else
    (s, 1, [Event.logError "Motion pause failed"])

/-- motion_continue.  Note: the source sets st_return = 1 in both branches. -/
def motion_continue (s : GatewayState) : GatewayState × Int × List Event :=
  if s.status == "paused" then
    ({ s with status := "moving" }, 1,
     [Event.logDebug "Motion continue", Event.putCommand "clean"])
  else
    (s, 1, [Event.logError "Motion continue failed"])

/-- motion_searchdock (its log strings are those of stop in the source). -/
def motion_searchdock (s : GatewayState) : GatewayState × Except String Int × List Event :=
  match statusRank s.status with
  | none => (s, Except.error "KeyError", [])
  | some r =>
    if r < 1 then
      (s, Except.ok 1, [Event.logError "Stop experiment failed"])
    else
      ({ s with status := "searching_dock" }, Except.ok 0,
       [Event.logDebug "Stop experiment", Event.putCommand "dock"])

/-- One iteration of the _watch_roomba loop body, processing one frame read
from the queue.  On a Python exception the partially updated state and the
events emitted so far are returned together with the error. -/
def watch_iteration (s0 : GatewayState) (frame : SensorFrame) :
    GatewayState × Except String Unit × List Event :=
  let s := { s0 with sensor_list := some frame }
  let evs :=
    if s.status == "error" then
      [Event.putCommand "safe", Event.logError "Roomba Emergency Stop"]
    else []
  match statusRank s.status with
  | none => (s, Except.error "KeyError", evs)
  | some r =>
    if r > 1 then
      -- Robot docking detection
      let dockCond := frame.home_base == 1 && s.status != "docked" && s.status != "moving"
      let s := if dockCond then { s with status := "docked" } else s
      let evs := evs ++ (if dockCond then [Event.resetPosition, Event.logDebug "Docked"] else [])
      -- Motors overcurrent detection
      let evs := evs ++
        (if frame.left_wheel_overcurrent != 0 || frame.right_wheel_overcurrent != 0 then
          [Event.logError "MOTORS OVERCURRENT"] else [])
      -- Robot dropped
      let dropCond := frame.left_wheel_drop != 0 || frame.right_wheel_drop != 0
      let s := if dropCond then { s with status := "init" } else s
      let evs := evs ++ (if dropCond then [Event.logError "ROBOT DROPPED"] else [])
      -- Update battery value: bat_charge * 1.0 converts to float, the
      -- division raises on zero capacity, and each float operation
      -- (int-to-float conversion, division, product with 100) rounds its
      -- exact value to the nearest binary64 double
      if frame.battery_capacity == 0 then
        (s, Except.error "ZeroDivisionError", evs)
      else
        let b := pyInt (roundDouble (roundDouble
          (roundDouble (frame.battery_charge : Rat) /
            roundDouble (frame.battery_capacity : Rat)) * 100))
        let s := { s with battery := b }
        -- Log robot position (the conjunction in the source is never true)
        let evs := evs ++
          (if s.status == "moving" && s.status == "searching_dock" then
            [Event.logDebug "ROOMBA POS"] else [])
        let evs := evs ++ [Event.sleep 1]
        (s, Except.ok (), evs)
    else
      (s, Except.ok (), evs)

/-- A frame with every flag clear and a unit battery capacity. -/
def quietFrame : SensorFrame :=
  { home_base := 0, left_wheel_overcurrent := 0, right_wheel_overcurrent := 0,
    left_wheel_drop := 0, right_wheel_drop := 0,
    battery_charge := 0, battery_capacity := 1,
    pos_x := 0, pos_y := 0, pos_z := 0 }

/-- Claim C1: the claim says get_position called while STATUS[status] < 1 logs
an error and still returns the last computed [x, y, theta] as a normal value.
In the source the locals posx, posy, theta are assigned only in the else
branch, so the final return statement raises UnboundLocalError in the
rank < 1 branch: the call is a hard failure, not a normal return. -/
theorem get_position_rank_low_raises :
    (get_position { initialState with status := "closed" }).2.1 =
      Except.error "UnboundLocalError" ∧
    (get_position { initialState with status := "error" }).2.1 =
      Except.error "UnboundLocalError" ∧
    (get_position { initialState with status := "closed" }).2.2 =
      [Event.logError "Get position failed"] :=
  ⟨rfl, rfl, rfl⟩

/-- Claim C2: the claim says motion_pause from status moving and
motion_continue from status paused return 0, with nonzero only on rejection.
The source sets st_return = 1 in the success branch of both methods, so both
return 1 even when the transition is performed. -/
theorem motion_pause_continue_success_returns_one :
    (motion_pause { initialState with status := "moving" }).2.1 = 1 ∧
    (motion_pause { initialState with status := "moving" }).1.status = "paused" ∧
    (motion_continue { initialState with status := "paused" }).2.1 = 1 ∧
    (motion_continue { initialState with status := "paused" }).1.status = "moving" := by
  decide

/-- Claim C3: every command issued while its precondition is violated returns
nonzero, leaves the state (in particular the status) unchanged, and emits only
a log record: no mode command is enqueued. -/
theorem precondition_violation_noop (s : GatewayState) :
    (∀ r, statusRank s.status = some r → r < 1 →
      start s = (s, Except.ok 1, [Event.logError "Start experiment failed"]) ∧
      stop s = (s, Except.ok 1, [Event.logError "Stop experiment failed"]) ∧
      motion_searchdock s = (s, Except.ok 1, [Event.logError "Stop experiment failed"])) ∧
    (s.status ≠ "moving" →
      motion_pause s = (s, 1, [Event.logError "Motion pause failed"])) ∧
    (s.status ≠ "paused" →
      motion_continue s = (s, 1, [Event.logError "Motion continue failed"])) := by
  refine ⟨fun r hr h1 => ?_, fun h => ?_, fun h => ?_⟩
  · refine ⟨?_, ?_, ?_⟩ <;> simp [start, stop, motion_searchdock, hr, h1]
  · simp [motion_pause, h]
  · simp [motion_continue, h]

/-- Witness for C3 at the concrete status closed (rank 0). -/
theorem precondition_violation_noop_witness :
    start { initialState with status := "closed" } =
      ({ initialState with status := "closed" }, Except.ok 1,
       [Event.logError "Start experiment failed"]) ∧
    stop { initialState with status := "closed" } =
      ({ initialState with status := "closed" }, Except.ok 1,
       [Event.logError "Stop experiment failed"]) ∧
    motion_searchdock { initialState with status := "closed" } =
      ({ initialState with status := "closed" }, Except.ok 1,
       [Event.logError "Stop experiment failed"]) ∧
    motion_pause { initialState with status := "closed" } =
      ({ initialState with status := "closed" }, 1,
       [Event.logError "Motion pause failed"]) ∧
    motion_continue { initialState with status := "closed" } =
      ({ initialState with status := "closed" }, 1,
       [Event.logError "Motion continue failed"]) := by
  have h := precondition_violation_noop { initialState with status := "closed" }
  exact ⟨(h.1 0 rfl (by norm_num)).1, (h.1 0 rfl (by norm_num)).2.1,
         (h.1 0 rfl (by norm_num)).2.2, h.2.1 (by decide), h.2.2 (by decide)⟩

/-- Claim C5: when the connection value read by init_roomba is false, the
status becomes error, the return code is 1, and neither the serial transport
thread nor the watchdog thread is started. -/
theorem init_connect_failure (s : GatewayState) :
    (init_roomba s false).1.status = "error" ∧
    (init_roomba s false).2.1 = 1 ∧
    Event.startSerialThread ∉ (init_roomba s false).2.2 ∧
    Event.startWatchThread ∉ (init_roomba s false).2.2 := by
  refine ⟨rfl, rfl, ?_, ?_⟩ <;> simp [init_roomba]

/-- Claim C9: stop called with a status of rank at least 1 enqueues a dock
mode command, sleeps one second, enqueues dock again, and sets status to
searching_dock, returning 0. -/
theorem stop_double_dock (s : GatewayState) (r : Int)
    (hr : statusRank s.status = some r) (h1 : 1 ≤ r) :
    stop s = ({ s with status := "searching_dock" }, Except.ok 0,
      [Event.logDebug "Stop experiment", Event.putCommand "dock",
       Event.sleep 1, Event.putCommand "dock"]) := by
  have h2 : ¬ r < 1 := by omega
  simp [stop, hr, h2]

/-- Witness for C9 at the freshly constructed state (status init, rank 1). -/
theorem stop_double_dock_witness :
    stop initialState = ({ initialState with status := "searching_dock" }, Except.ok 0,
      [Event.logDebug "Stop experiment", Event.putCommand "dock",
       Event.sleep 1, Event.putCommand "dock"]) :=
  stop_double_dock initialState 1 rfl (by norm_num)

/-- A frame whose left wheel-drop flag is set. -/
def dropFrame : SensorFrame := { quietFrame with left_wheel_drop := 1 }

/-- A frame reporting a zero battery capacity. -/
def zeroCapFrame : SensorFrame := { quietFrame with battery_capacity := 0 }

/-- Counterexample to C4 as stated: with status closed (rank 0, not the
excepted error) a frame with the left wheel-drop flag set leaves the status
at closed and logs nothing, because the whole safety block is guarded by
STATUS[self.status] > 1. -/
theorem wheel_drop_closed_unchanged :
    (watch_iteration { initialState with status := "closed" } dropFrame).1.status = "closed" ∧
    Event.logError "ROBOT DROPPED" ∉
      (watch_iteration { initialState with status := "closed" } dropFrame).2.2 := by
  decide

/-- Claim C4 amended: a frame with either wheel-drop flag set makes the
iteration log ROBOT DROPPED and force status to init, provided the status
observed at the rank check has rank above 1 (docked, moving, paused or
searching_dock); this holds even when the battery update later raises. -/
theorem wheel_drop_forces_init (s : GatewayState) (frame : SensorFrame) (r : Int)
    (hr : statusRank s.status = some r) (h1 : 1 < r)
    (hd : frame.left_wheel_drop ≠ 0 ∨ frame.right_wheel_drop ≠ 0) :
    (watch_iteration s frame).1.status = "init" ∧
    Event.logError "ROBOT DROPPED" ∈ (watch_iteration s frame).2.2 := by
  have hd2 : (frame.left_wheel_drop != 0 || frame.right_wheel_drop != 0) = true := by
    rcases hd with h | h <;> simp [h]
  simp only [watch_iteration, hr, hd2]
  simp only [gt_iff_lt, if_pos h1]
  constructor <;> split <;> split <;> simp_all

/-- Witness for C4 at status moving with the left wheel dropped. -/
theorem wheel_drop_forces_init_witness :
    (watch_iteration { initialState with status := "moving" } dropFrame).1.status = "init" ∧
    Event.logError "ROBOT DROPPED" ∈
      (watch_iteration { initialState with status := "moving" } dropFrame).2.2 :=
  wheel_drop_forces_init { initialState with status := "moving" } dropFrame 3
    rfl (by norm_num) (Or.inl (by decide))

/-- Counterexample to C6 as stated: a frame carrying battery capacity 0
makes the iteration raise ZeroDivisionError at the battery update, so the
watchdog does not absorb every combination of charge and capacity. -/
theorem watch_zero_capacity_raises :
    (watch_iteration { initialState with status := "docked" } zeroCapFrame).2.1 =
      Except.error "ZeroDivisionError" := rfl

/-- Claim C6 amended: for every valid status string, one watchdog iteration
completes without raising provided the battery capacity of the frame is
nonzero; every hazard is then handled by logging or a status transition. -/
theorem watch_iteration_no_raise (s : GatewayState) (frame : SensorFrame) (r : Int)
    (hr : statusRank s.status = some r) (hc : frame.battery_capacity ≠ 0) :
    (watch_iteration s frame).2.1 = Except.ok () := by
  have hc2 : (frame.battery_capacity == 0) = false := by simp [hc]
  simp only [watch_iteration, hr, hc2]
  split
  · split <;> split <;> split <;> simp_all
  · rfl

/-- Witness for C6 at status docked with the quiet frame. -/
theorem watch_iteration_no_raise_witness :
    (watch_iteration { initialState with status := "docked" } quietFrame).2.1 =
      Except.ok () :=
  watch_iteration_no_raise { initialState with status := "docked" } quietFrame 2
    rfl (by decide)

/-- Counterexample to C7 as stated: at status init (rank 1) the iteration
emits no events at all, in particular no one-second sleep, because the
sleep call sits inside the block guarded by STATUS[self.status] > 1. -/
theorem watch_init_no_sleep :
    Event.sleep 1 ∉ (watch_iteration initialState quietFrame).2.2 ∧
    (watch_iteration initialState quietFrame).2.1 = Except.ok () :=
  ⟨by decide, rfl⟩

/-- Claim C7 amended: an iteration ends with the fixed one-second sleep
exactly when the status observed at the rank check has rank above 1 and the
battery update does not raise; at rank 1 or below no sleep is performed. -/
theorem watch_sleep_iff_rank_above_one (s : GatewayState) (frame : SensorFrame) (r : Int)
    (hr : statusRank s.status = some r) :
    (1 < r → frame.battery_capacity ≠ 0 →
      (watch_iteration s frame).2.2.getLast? = some (Event.sleep 1)) ∧
    (r ≤ 1 → Event.sleep 1 ∉ (watch_iteration s frame).2.2) := by
  constructor
  · intro h1 hc
    have hc2 : (frame.battery_capacity == 0) = false := by simp [hc]
    simp only [watch_iteration, hr, hc2]
    simp only [gt_iff_lt, if_pos h1]
    exact List.getLast?_concat _
  · intro h1
    have h2 : ¬ 1 < r := by omega
    simp only [watch_iteration, hr]
    simp only [gt_iff_lt, if_neg h2]
    split <;> simp_all

/-- Witness for C7: rank 2 (docked) sleeps at the end, rank 1 (init) does
not sleep. -/
theorem watch_sleep_witness :
    (watch_iteration { initialState with status := "docked" } quietFrame).2.2.getLast? =
      some (Event.sleep 1) ∧
    Event.sleep 1 ∉ (watch_iteration initialState quietFrame).2.2 :=
  ⟨(watch_sleep_iff_rank_above_one { initialState with status := "docked" } quietFrame 2
      rfl).1 (by norm_num) (by decide),
   (watch_sleep_iff_rank_above_one initialState quietFrame 1 rfl).2 (by norm_num)⟩

/-- Truncation toward zero agrees with the floor on the nonnegative battery
ratio, and the multiplication can be pulled inside the division. -/
theorem pyInt_ratio (c k : Nat) :
    pyInt (((c : Rat) / (k : Rat)) * 100) = ⌊(100 * c : Rat) / (k : Rat)⌋ := by
  have h0 : (0 : Rat) ≤ ((c : Rat) / (k : Rat)) * 100 := by positivity
  have harg : ((c : Rat) / (k : Rat)) * 100 = (100 * c : Rat) / (k : Rat) := by ring
  rw [pyInt, if_neg (not_lt.2 h0), harg]

/-- A frame reporting charge 50 out of capacity 200. -/
def halfFrame : SensorFrame :=
  { quietFrame with battery_charge := 50, battery_capacity := 200 }

/-- A frame reporting charge 29 out of capacity 100. -/
def fr29 : SensorFrame :=
  { quietFrame with battery_charge := 29, battery_capacity := 100 }

/-- The binary logarithm used by roundDouble is determined by the
power-of-two bracket of a positive rational. -/
theorem log2_eq_of_bounds (q : Rat) (e : Int) (hq : 0 < q)
    (h1 : (2:Rat) ^ e ≤ q) (h2 : q < (2:Rat) ^ (e + 1)) : Int.log 2 q = e := by
  have hc : ((2:ℕ) : Rat) = (2 : Rat) := by norm_num
  have hle : e ≤ Int.log 2 q :=
    (Int.zpow_le_iff_le_log (by norm_num) hq).mp (by rw [hc]; exact h1)
  have hlt : Int.log 2 q < e + 1 :=
    (Int.lt_zpow_iff_log_lt (by norm_num) hq).mp (by rw [hc]; exact h2)
  omega

/-- roundDouble on a positive value bracketed by 2^e and 2^(e+1) rounds the
significand scaled to 53 bits. -/
theorem roundDouble_eq_of_log (q : Rat) (e : Int) (hq : 0 < q)
    (h1 : (2:Rat) ^ e ≤ q) (h2 : q < (2:Rat) ^ (e + 1)) :
    roundDouble q = (rne (q / 2 ^ (e - 52)) : Rat) * 2 ^ (e - 52) := by
  rw [roundDouble, if_pos hq, log2_eq_of_bounds q e hq h1 h2]

/-- Floor of a rational from its two defining inequalities. -/
theorem floor_eval (a : Rat) (z : Int) (h1 : (z:Rat) ≤ a) (h2 : a < z + 1) : ⌊a⌋ = z :=
  Int.floor_eq_iff.mpr ⟨h1, h2⟩

/-- Round to nearest returns the floor when the fractional part is below
one half. -/
theorem rne_eq_of_floor_lt (x : Rat) (f : Int) (hf : ⌊x⌋ = f) (h : x - f < 1/2) :
    rne x = f := by
  rw [rne, hf, if_pos h]

/-- A value that is an integer multiple of its ulp is a double and rounds
to itself. -/
theorem roundDouble_exact (q : Rat) (e : Int) (m : Int) (hq : 0 < q)
    (h1 : (2:Rat) ^ e ≤ q) (h2 : q < (2:Rat) ^ (e + 1))
    (hm : q = (m : Rat) * 2 ^ (e - 52)) :
    roundDouble q = q := by
  rw [roundDouble_eq_of_log q e hq h1 h2]
  have hz : ((2:Rat) ^ ((e:Int) - 52)) ≠ 0 := by positivity
  have hx : q / 2 ^ (e - 52) = (m : Rat) := by
    rw [hm, mul_div_assoc, div_self hz, mul_one]
  rw [hx, rne_eq_of_floor_lt (m:Rat) m (by simp) (by simp), ← hm]

/-- The double nearest 29/100 lies strictly below it. -/
theorem roundDouble_29_div_100 :
    roundDouble ((29:Rat)/100) = 5224175567749775 / 2 ^ 54 := by
  rw [roundDouble_eq_of_log ((29:Rat)/100) (-2) (by norm_num) (by norm_num) (by norm_num)]
  rw [show ((29:Rat)/100) / 2 ^ ((-2:Int) - 52) = 130604389193744384/25 by norm_num]
  rw [rne_eq_of_floor_lt (130604389193744384/25 : Rat) 5224175567749775
    (floor_eval _ _ (by norm_num) (by norm_num)) (by norm_num)]
  norm_num

/-- Multiplying that double by 100 rounds to a value just under 29. -/
theorem roundDouble_29_prod :
    roundDouble ((5224175567749775 / 2 ^ 54 : Rat) * 100) = 8162774324609023 / 2 ^ 48 := by
  rw [roundDouble_eq_of_log ((5224175567749775 / 2 ^ 54 : Rat) * 100) 4
    (by norm_num) (by norm_num) (by norm_num)]
  rw [show ((5224175567749775 / 2 ^ 54 : Rat) * 100) / 2 ^ ((4:Int) - 52)
    = 130604389193744375/16 by norm_num]
  rw [rne_eq_of_floor_lt (130604389193744375/16 : Rat) 8162774324609023
    (floor_eval _ _ (by norm_num) (by norm_num)) (by norm_num)]
  norm_num

/-- The battery value written by an iteration whose safety block runs with
nonzero capacity: the float evaluation of int((charge/capacity)*100). -/
theorem watch_battery_value (s : GatewayState) (frame : SensorFrame) (r : Int)
    (hr : statusRank s.status = some r) (h1 : 1 < r) (hc : frame.battery_capacity ≠ 0) :
    (watch_iteration s frame).1.battery =
      pyInt (roundDouble (roundDouble
        (roundDouble (frame.battery_charge : Rat) /
          roundDouble (frame.battery_capacity : Rat)) * 100)) := by
  have hc2 : (frame.battery_capacity == 0) = false := by simp [hc]
  simp only [watch_iteration, hr, hc2]
  simp only [gt_iff_lt, if_pos h1]
  (repeat' split) <;> simp_all

/-- Counterexample to C8 as stated: at charge 29, capacity 100 the float
computation int((29.0/100)*100) yields 28, one below
floor(100*29/100) = 29, because both the division and the product round
down to the nearest double. -/
theorem battery_rounds_below_floor :
    (watch_iteration { initialState with status := "docked" } fr29).1.battery = 28 ∧
    ⌊(100 * fr29.battery_charge : Rat) / (fr29.battery_capacity : Rat)⌋ = 29 := by
  constructor
  · rw [watch_battery_value { initialState with status := "docked" } fr29 2
      rfl (by norm_num) (by decide)]
    rw [show (fr29.battery_charge : Rat) = 29 from by norm_num [fr29, quietFrame]]
    rw [show (fr29.battery_capacity : Rat) = 100 from by norm_num [fr29, quietFrame]]
    rw [roundDouble_exact 29 4 8162774324609024 (by norm_num) (by norm_num)
      (by norm_num) (by norm_num)]
    rw [roundDouble_exact 100 6 7036874417766400 (by norm_num) (by norm_num)
      (by norm_num) (by norm_num)]
    rw [roundDouble_29_div_100, roundDouble_29_prod]
    rw [pyInt, if_neg (not_lt.2 (by positivity))]
    exact floor_eval _ 28 (by norm_num) (by norm_num)
  · rw [show (100 * fr29.battery_charge : Rat) / (fr29.battery_capacity : Rat) = 29 from by
      norm_num [fr29, quietFrame]]
    exact floor_eval 29 29 (by norm_num) (by norm_num)

/-- Claim C8 amended: the battery is recomputed as int((charge/capacity)*100)
in binary64 float arithmetic; whenever the four float steps are exact the
result equals floor(100*charge/capacity), and in particular charge 50 with
capacity 200 gives 25. -/
theorem battery_floor_when_exact (s : GatewayState) (frame : SensorFrame) (r : Int)
    (hr : statusRank s.status = some r) (h1 : 1 < r) (hc : frame.battery_capacity ≠ 0)
    (e1 : roundDouble (frame.battery_charge : Rat) = (frame.battery_charge : Rat))
    (e2 : roundDouble (frame.battery_capacity : Rat) = (frame.battery_capacity : Rat))
    (e3 : roundDouble ((frame.battery_charge : Rat) / (frame.battery_capacity : Rat)) =
      (frame.battery_charge : Rat) / (frame.battery_capacity : Rat))
    (e4 : roundDouble (((frame.battery_charge : Rat) / (frame.battery_capacity : Rat)) * 100) =
      ((frame.battery_charge : Rat) / (frame.battery_capacity : Rat)) * 100) :
    (watch_iteration s frame).1.battery =
      ⌊(100 * frame.battery_charge : Rat) / (frame.battery_capacity : Rat)⌋ := by
  rw [watch_battery_value s frame r hr h1 hc, e1, e2, e3, e4, pyInt_ratio]

/-- Witness for C8: at status docked, charge 50 and capacity 200 every float
step is exact and the battery becomes 25. -/
theorem battery_floor_when_exact_witness :
    (watch_iteration { initialState with status := "docked" } halfFrame).1.battery = 25 := by
  have hch : (halfFrame.battery_charge : Rat) = 50 := by norm_num [halfFrame, quietFrame]
  have hcp : (halfFrame.battery_capacity : Rat) = 200 := by norm_num [halfFrame, quietFrame]
  have h := battery_floor_when_exact { initialState with status := "docked" } halfFrame 2
    rfl (by norm_num) (by decide)
    (by rw [hch]
        exact roundDouble_exact 50 5 7036874417766400 (by norm_num) (by norm_num)
          (by norm_num) (by norm_num))
    (by rw [hcp]
        exact roundDouble_exact 200 7 7036874417766400 (by norm_num) (by norm_num)
          (by norm_num) (by norm_num))
    (by rw [hch, hcp]
        exact roundDouble_exact ((50:Rat)/200) (-2) 4503599627370496 (by norm_num)
          (by norm_num) (by norm_num) (by norm_num))
    (by rw [hch, hcp]
        exact roundDouble_exact (((50:Rat)/200) * 100) 4 7036874417766400 (by norm_num)
          (by norm_num) (by norm_num) (by norm_num))
  rw [h, show (100 * halfFrame.battery_charge : Rat) / (halfFrame.battery_capacity : Rat) = 25
    from by norm_num [halfFrame, quietFrame]]
  exact floor_eval 25 25 (by norm_num) (by norm_num)

/-- The externally visible operations of a GatewayRoomba object, as far as
they touch the object state; opWatch is one iteration of the watchdog. -/
inductive Op where
  | opInit (connect : Bool)
  | opClose
  | opStart
  | opStop
  | opGetStatus
  | opGetBattery
  | opGetPosition
  | opMotionPause
  | opMotionContinue
  | opMotionSearchdock
  | opWatch (frame : SensorFrame)

/-- State reached after one operation (the state component of each method,
including the state at the point a Python exception would propagate). -/
def applyOp (s : GatewayState) : Op → GatewayState
  | Op.opInit c => (init_roomba s c).1
  | Op.opClose => (close_roomba s).1
  | Op.opStart => (start s).1
  | Op.opStop => (stop s).1
  | Op.opGetStatus => s
  | Op.opGetBattery => (get_battery s).1
  | Op.opGetPosition => (get_position s).1
  | Op.opMotionPause => (motion_pause s).1
  | Op.opMotionContinue => (motion_continue s).1
  | Op.opMotionSearchdock => (motion_searchdock s).1
  | Op.opWatch f => (watch_iteration s f).1

/-- Sequential execution of a list of operations. -/
def run (s : GatewayState) : List Op → GatewayState
  | [] => s
  | op :: ops => run (applyOp s op) ops

/-- The seven enumerated status values (the keys of STATUS). -/
def statusValues : List String :=
  ["error", "closed", "init", "docked", "moving", "paused", "searching_dock"]

/-- Helper for C10: no single operation moves the status out of the
enumerated set. -/
theorem applyOp_status_mem (s : GatewayState) (op : Op)
    (h : s.status ∈ statusValues) : (applyOp s op).status ∈ statusValues := by
  cases op <;>
    simp only [applyOp, init_roomba, close_roomba, start, stop, get_battery,
      get_position, motion_pause, motion_continue, motion_searchdock, watch_iteration] <;>
    (repeat' split) <;>
    first
      | exact h
      | simp [statusValues]

/-- Claim C10: starting from the constructed object, every sequence of
public operations and watchdog iterations keeps the status inside the seven
enumerated values. -/
theorem status_always_enumerated (ops : List Op) :
    (run initialState ops).status ∈ statusValues := by
  have key : ∀ (l : List Op) (s : GatewayState),
      s.status ∈ statusValues → (run s l).status ∈ statusValues := by
    intro l
    induction l with
    | nil => intro s h; exact h
    | cons op rest ih => intro s h; exact ih _ (applyOp_status_mem s op h)
  exact key ops initialState (by decide)
